import Mathlib

/-!
Verification of the ContentForge browser client (CursedOn3/Ideathon).

The development shallowly embeds the data model and the interactive logic of
the client: the template/report list filtering of Templates.tsx and
MyReports.tsx, the authentication gate of AppLayout, the simulated
generate / publish / save handlers of CreateReport, ReportPreview and
Settings, and the report-preview rendering of ReportPreview.

Strings are modelled as Lean Strings; JavaScript String.prototype methods
(toLowerCase, includes, trim) are given executable Lean counterparts over
the character list of the string.  The asynchronous handlers (async
functions awaiting a fixed setTimeout) are embedded as explicit state
machines: a click event runs the synchronous half of the handler up to the
await, and a timer event runs the continuation after the await.  The
disabled attribute of the triggering button is a guard on the click event.
-/

/-! ## JavaScript string primitives -/

/-- JS String.prototype.toLowerCase (ASCII case mapping on each character). -/
def strToLower (s : String) : String :=
  String.mk (s.toList.map Char.toLower)

/-- JS String.prototype.startsWith on character lists. -/
def startsWithChars : List Char → List Char → Bool
  | [], _ => true
  | _ :: _, [] => false
  | a :: pat, b :: s => a == b && startsWithChars pat s

/-- Single-pass substring scan on character lists: does the pattern occur
as a contiguous run somewhere in the scanned list? -/
def includesChars (pat : List Char) : List Char → Bool
  | [] => pat.isEmpty
  | b :: s => startsWithChars pat (b :: s) || includesChars pat s

/-- JS String.prototype.includes: substring containment test. -/
def strIncludes (s pat : String) : Bool :=
  includesChars pat.toList s.toList

/-- Characters treated as trimmable whitespace by JS String.prototype.trim. -/
def jsWhitespace (c : Char) : Bool :=
  c == ' ' || c == '\t' || c == '\n' || c == '\r' || c == '\x0b' || c == '\x0c'

/-- JS String.prototype.trim: drop whitespace from both ends. -/
def strTrim (s : String) : String :=
  String.mk (((s.toList.dropWhile jsWhitespace).reverse.dropWhile jsWhitespace).reverse)

/-! ## Data model (spec section 3; mock fixture record shapes) -/

/-- Report status: 'draft' or 'published'. -/
inductive ReportStatus where
  | draft
  | published
deriving DecidableEq, Repr

/-- Template record: identifier, name, category, description. -/
structure Template where
  id : String
  name : String
  category : String
  description : String
deriving DecidableEq, Repr

/-- Report record: identifier, title, creation timestamp, status, optional
template reference. -/
structure Report where
  id : String
  title : String
  createdAt : String
  status : ReportStatus
  template : Option String
deriving DecidableEq, Repr

/-! ## Template filtering (Templates.tsx, filteredTemplates) -/

/-- Search half of the Templates.tsx filter predicate:
template.name.toLowerCase().includes(searchQuery.toLowerCase()) or the same
on template.description. -/
def templateMatchesSearch (template : Template) (searchQuery : String) : Bool :=
  strIncludes (strToLower template.name) (strToLower searchQuery) ||
  strIncludes (strToLower template.description) (strToLower searchQuery)

/-- Category half of the Templates.tsx filter predicate:
!selectedCategory || template.category === selectedCategory. -/
def templateMatchesCategory (template : Template) (selectedCategory : Option String) : Bool :=
  match selectedCategory with
  | none => true
  | some c => template.category == c

/-- Templates.tsx lines 58-63: filteredTemplates = mockTemplates.filter(...). -/
def filteredTemplates (mockTemplates : List Template) (searchQuery : String)
    (selectedCategory : Option String) : List Template :=
  mockTemplates.filter fun template =>
    templateMatchesSearch template searchQuery &&
    templateMatchesCategory template selectedCategory

/-! ## Report filtering (MyReports.tsx, filteredReports) -/

/-- The statusFilter state of MyReports.tsx: 'all' | 'draft' | 'published'. -/
inductive StatusFilter where
  | all
  | draft
  | published
deriving DecidableEq, Repr

/-- Search half of the MyReports.tsx filter predicate:
report.title.toLowerCase().includes(searchQuery.toLowerCase()). -/
def reportMatchesSearch (report : Report) (searchQuery : String) : Bool :=
  strIncludes (strToLower report.title) (strToLower searchQuery)

/-- Status half of the MyReports.tsx filter predicate:
statusFilter === 'all' || report.status === statusFilter. -/
def reportMatchesStatus (report : Report) (statusFilter : StatusFilter) : Bool :=
  match statusFilter with
  | .all => true
  | .draft => report.status == .draft
  | .published => report.status == .published

/-- MyReports.tsx lines 45-49: filteredReports = mockReports.filter(...). -/
def filteredReports (mockReports : List Report) (searchQuery : String)
    (statusFilter : StatusFilter) : List Report :=
  mockReports.filter fun report =>
    reportMatchesSearch report searchQuery &&
    reportMatchesStatus report statusFilter

/-! ## Authenticated application shell (AppLayout.tsx) -/

/-- What an AppLayout-wrapped view renders: either a client-side redirect
to a route, or the shell (sidebar plus main area) around the children. -/
inductive Rendered (α : Type) where
  | redirect (route : String)
  | shell (children : α)
deriving DecidableEq, Repr

/-- AppLayout: if (!isAuthenticated) return <Navigate to="/auth" replace/>;
otherwise render the sidebar shell around the children.  The gate consults
only the boolean isAuthenticated flag. -/
def AppLayout {α : Type} (isAuthenticated : Bool) (children : α) : Rendered α :=
  if !isAuthenticated then .redirect "/auth" else .shell children

/-! ## CreateReport page (handleGenerate) -/

/-- Fixed delay of the simulated generate call: setTimeout(resolve, 2000). -/
def generateDelayMs : Nat := 2000

/-- Route targeted by the navigate call after generation resolves. -/
def previewRoute : String := "/reports/preview"

/-- Component state of CreateReport: the prompt text, the isGenerating
flag, the in-flight simulated request (carrying the prompt captured by the
handler closure), and the navigation performed on resolution (route and
the prompt passed in location state). -/
structure GenState where
  prompt : String
  isGenerating : Bool
  pendingPrompt : Option String
  navigatedTo : Option (String × String)
deriving DecidableEq, Repr

/-- Initial CreateReport state: useState('') and useState(false). -/
def genInit : GenState :=
  { prompt := "", isGenerating := false, pendingPrompt := none, navigatedTo := none }

/-- Events of the CreateReport page: editing the textarea, clicking the
generate button, and the simulated 2000 ms timer resolving. -/
inductive GenEvent where
  | setPrompt (p : String)
  | clickGenerate
  | generateTimer
deriving DecidableEq, Repr

/-- Disabled attribute of the generate button:
disabled={!prompt.trim() || isGenerating}. -/
def generateDisabled (s : GenState) : Bool :=
  strTrim s.prompt == "" || s.isGenerating

/-- Event-step semantics of CreateReport.  A click on a disabled button is
dropped by the browser; an enabled click runs handleGenerate up to the
await (guard: if (!prompt.trim()) return; then setIsGenerating(true)); the
timer event runs the continuation after the await (setIsGenerating(false);
navigate('/reports/preview', { state: { prompt } })). -/
def genStep (s : GenState) : GenEvent → GenState
  | .setPrompt p => { s with prompt := p }
  | .clickGenerate =>
      if generateDisabled s then s
      else if strTrim s.prompt == "" then s
      else { s with isGenerating := true, pendingPrompt := some s.prompt }
  | .generateTimer =>
      match s.pendingPrompt with
      | none => s
      | some p =>
          { s with isGenerating := false, pendingPrompt := none,
                   navigatedTo := some (previewRoute, p) }

/-! ## ReportPreview page (handlePublish) -/

/-- Fixed delay of the simulated publish call: setTimeout(resolve, 1500). -/
def publishDelayMs : Nat := 1500

/-- Component state of ReportPreview relevant to publishing: the
isPublishing and isPublished flags and the in-flight simulated request. -/
structure PubState where
  isPublishing : Bool
  isPublished : Bool
  pendingPublish : Bool
deriving DecidableEq, Repr

/-- Initial ReportPreview state: useState(false) twice. -/
def pubInit : PubState :=
  { isPublishing := false, isPublished := false, pendingPublish := false }

/-- Events of the ReportPreview page: clicking the publish button and the
simulated 1500 ms timer resolving. -/
inductive PubEvent where
  | clickPublish
  | publishTimer
deriving DecidableEq, Repr

/-- Disabled attribute of the publish button:
disabled={isPublishing || isPublished}. -/
def publishDisabled (s : PubState) : Bool :=
  s.isPublishing || s.isPublished

/-- Event-step semantics of ReportPreview publishing.  An enabled click
runs handlePublish up to the await (setIsPublishing(true)); the timer
event runs the continuation (setIsPublishing(false); setIsPublished(true)). -/
def pubStep (s : PubState) : PubEvent → PubState
  | .clickPublish =>
      if publishDisabled s then s
      else { s with isPublishing := true, pendingPublish := true }
  | .publishTimer =>
      if s.pendingPublish then
        { isPublishing := false, isPublished := true, pendingPublish := false }
      else s

/-! ## Settings page (handleSave) -/

/-- Fixed delay of the simulated save call: setTimeout(resolve, 1000). -/
def saveDelayMs : Nat := 1000

/-- Delay after which the saved indicator is cleared:
setTimeout(() => setSaved(false), 2000). -/
def savedResetDelayMs : Nat := 2000

/-- Component state of Settings relevant to saving: the isSaving and saved
flags, the in-flight simulated save, and the pending saved-reset timer. -/
structure SaveState where
  isSaving : Bool
  saved : Bool
  pendingSave : Bool
  pendingReset : Bool
deriving DecidableEq, Repr

/-- Initial Settings state: useState(false) twice. -/
def saveInit : SaveState :=
  { isSaving := false, saved := false, pendingSave := false, pendingReset := false }

/-- Events of the Settings page: clicking the save button, the simulated
1000 ms save timer resolving, and the 2000 ms saved-reset timer firing. -/
inductive SaveEvent where
  | clickSave
  | saveTimer
  | resetTimer
deriving DecidableEq, Repr

/-- Disabled attribute of the save button: disabled={isSaving}. -/
def saveDisabled (s : SaveState) : Bool :=
  s.isSaving

/-- Event-step semantics of Settings saving.  An enabled click runs
handleSave up to the await (setIsSaving(true)); the save timer runs the
continuation (setIsSaving(false); setSaved(true); arm the reset timer);
the reset timer clears the saved indicator. -/
def saveStep (s : SaveState) : SaveEvent → SaveState
  | .clickSave =>
      if saveDisabled s then s
      else { s with isSaving := true, pendingSave := true }
  | .saveTimer =>
      if s.pendingSave then
        { s with isSaving := false, saved := true,
                 pendingSave := false, pendingReset := true }
      else s
  | .resetTimer =>
      if s.pendingReset then { s with saved := false, pendingReset := false }
      else s

/-! ## GeneratedReport data model and preview rendering (ReportPreview) -/

/-- Section type of a generated-report section: narrative text or table. -/
inductive SectionType where
  | text
  | table
deriving DecidableEq, Repr

/-- One row of a tabular section: an object rendered as key/value cells in
field order. -/
structure TableRow where
  cells : List (String × String)
deriving DecidableEq, Repr

/-- A section of a generated report: identifier, title, type, narrative
content, and optional tabular data. -/
structure ReportSection where
  id : String
  title : String
  type : SectionType
  content : String
  data : Option (List TableRow)
deriving DecidableEq, Repr

/-- A citation: identifier, source label, excerpt, optional URL. -/
structure Citation where
  id : String
  source : String
  excerpt : String
  url : Option String
deriving DecidableEq, Repr

/-- A generated report: executive summary, ordered sections, ordered
citations. -/
structure GeneratedReport where
  executiveSummary : String
  sections : List ReportSection
  citations : List Citation
deriving DecidableEq, Repr

/-- What ReportPreview renders for one section: a table card holding the
rows, or a narrative card holding the content paragraph. -/
inductive RenderedSection where
  | tableCard (title : String) (rows : List TableRow)
  | narrativeCard (title : String) (content : String)
deriving DecidableEq, Repr

/-- Whether a rendered section is the table form. -/
def RenderedSection.isTable : RenderedSection → Bool
  | .tableCard _ _ => true
  | .narrativeCard _ _ => false

/-- ReportPreview section body (lines 134-174):
section.type === 'table' && section.data ? table : narrative paragraph. -/
def renderSection (s : ReportSection) : RenderedSection :=
  match s.type, s.data with
  | .table, some rows => .tableCard s.title rows
  | _, _ => .narrativeCard s.title s.content

/-- What ReportPreview renders for one citation: the 1-based number badge,
source label, excerpt, and the external link (present iff citation.url). -/
structure RenderedCitation where
  number : Nat
  source : String
  excerpt : String
  link : Option String
deriving DecidableEq, Repr

/-- ReportPreview citations sidebar (lines 195-220):
report.citations.map((citation, index) => ...) with badge index + 1 and an
external link only when citation.url is present. -/
def renderCitations (citations : List Citation) : List RenderedCitation :=
  citations.enum.map fun ic =>
    { number := ic.1 + 1, source := ic.2.source,
      excerpt := ic.2.excerpt, link := ic.2.url }

/-- The full preview body: the sections in order, then the citations in
order. -/
def renderPreview (report : GeneratedReport) :
    List RenderedSection × List RenderedCitation :=
  (report.sections.map renderSection, renderCitations report.citations)

/-! ## Concrete fixtures used to instantiate the theorems -/

/-- A concrete template record in the shape of the mock fixtures. -/
def tFixture : Template :=
  { id := "1", name := "Q4 Marketing", category := "Marketing",
    description := "Campaign recap" }

/-- A concrete report record in the shape of the mock fixtures. -/
def rFixture : Report :=
  { id := "1", title := "Annual Sales", createdAt := "2024-01-15",
    status := .draft, template := none }

/-- A concrete narrative section in the shape of the mock fixtures. -/
def sectionFixture : ReportSection :=
  { id := "s1", title := "Overview", type := .text,
    content := "Narrative body", data := none }

/-- A concrete citation in the shape of the mock fixtures. -/
def citationFixture : Citation :=
  { id := "c1", source := "Internal KPI Database", excerpt := "Revenue grew",
    url := some "https://example.com" }

/-- A concrete generated report in the shape of the mock fixtures. -/
def previewFixture : GeneratedReport :=
  { executiveSummary := "Summary", sections := [sectionFixture],
    citations := [citationFixture] }

/-! ## Correctness of the substring scan -/

/-- The prefix test agrees with the prefix relation on lists. -/
lemma startsWithChars_iff (pat s : List Char) :
    startsWithChars pat s = true ↔ pat <+: s := by
  induction pat generalizing s with
  | nil => simp [startsWithChars, List.nil_prefix]
  | cons a pat ih =>
    cases s with
    | nil => simp [startsWithChars, List.prefix_nil]
    | cons b s =>
      simp [startsWithChars, ih, List.cons_prefix_cons, Bool.and_eq_true,
        beq_iff_eq]

/-- The substring scan agrees with the contiguous-sublist relation. -/
lemma includesChars_iff (pat s : List Char) :
    includesChars pat s = true ↔ pat <:+: s := by
  induction s with
  | nil => simp [includesChars, List.isEmpty_iff, List.infix_nil]
  | cons b s ih =>
    simp [includesChars, startsWithChars_iff, ih, List.infix_cons_iff,
      Bool.or_eq_true]

/-- strIncludes decides substring containment on the character lists. -/
lemma strIncludes_iff (s pat : String) :
    strIncludes s pat = true ↔ pat.toList <:+: s.toList :=
  includesChars_iff pat.toList s.toList

/-- The empty pattern occurs in every scanned list. -/
lemma includesChars_nil (l : List Char) : includesChars [] l = true := by
  cases l <;> simp [includesChars, startsWithChars]

/-- Lowercasing the empty query gives a pattern every string includes. -/
lemma strIncludes_toLower_empty (s : String) :
    strIncludes s (strToLower "") = true :=
  includesChars_nil s.toList

/-! ## Claim theorems -/

/-- Claim C1: for every search query, filtering the in-memory list returns
exactly the records whose searched fields contain the query as a
case-insensitive substring — every returned record matches and every
matching record is returned.  Templates are matched on name/description,
reports on title; the other filter dimension is left at its identity
setting (no category, status 'all'). -/
theorem filtered_search_sound_complete (templates : List Template)
    (reports : List Report) (q : String) :
    (∀ t : Template, t ∈ filteredTemplates templates q none ↔
      t ∈ templates ∧
        ((strToLower q).toList <:+: (strToLower t.name).toList ∨
         (strToLower q).toList <:+: (strToLower t.description).toList)) ∧
    (∀ r : Report, r ∈ filteredReports reports q .all ↔
      r ∈ reports ∧ (strToLower q).toList <:+: (strToLower r.title).toList) := by
  constructor
  · intro t
    simp [filteredTemplates, List.mem_filter, templateMatchesSearch,
      templateMatchesCategory, Bool.and_eq_true, Bool.or_eq_true,
      strIncludes_iff]
  · intro r
    simp [filteredReports, List.mem_filter, reportMatchesSearch,
      reportMatchesStatus, Bool.and_eq_true, strIncludes_iff]

/-- Claim C3: a view wrapped in AppLayout renders a redirect to /auth when
isAuthenticated is false, and the shell around its content when it is
true; the gate is a function of the boolean flag alone. -/
theorem applayout_redirects_unauthenticated (α : Type) (children : α) :
    AppLayout false children = Rendered.redirect "/auth" ∧
    AppLayout true children = Rendered.shell children := by
  constructor <;> rfl

/-- Claim C5: selecting a category restricts the filtered template list to
records of that category, and selecting All Categories (selectedCategory
null) yields exactly the list filtered by the search query alone. -/
theorem category_restricts_and_all_identity (templates : List Template)
    (q : String) (c : String) :
    (∀ t : Template, t ∈ filteredTemplates templates q (some c) →
      t.category = c) ∧
    filteredTemplates templates q none =
      templates.filter fun t => templateMatchesSearch t q := by
  constructor
  · intro t ht
    have h := (List.mem_filter.1 ht).2
    simp [templateMatchesCategory, Bool.and_eq_true, beq_iff_eq] at h
    exact h.2
  · simp [filteredTemplates, templateMatchesCategory]

/-- Claim C10: filtering is order-preserving — the filtered list is a
sublist of the fixture list in its original order — and the empty query
with no category selected (resp. the 'all' status filter) is the identity
filter. -/
theorem filtering_order_preserving_empty_identity (templates : List Template)
    (reports : List Report) (q q' : String) (c : Option String)
    (f : StatusFilter) :
    (filteredTemplates templates q c).Sublist templates ∧
    (filteredReports reports q' f).Sublist reports ∧
    filteredTemplates templates "" none = templates ∧
    filteredReports reports "" .all = reports := by
  refine ⟨List.filter_sublist _, List.filter_sublist _, ?_, ?_⟩
  · refine List.filter_eq_self.2 fun t _ => ?_
    simp [templateMatchesSearch, templateMatchesCategory,
      strIncludes_toLower_empty]
  · refine List.filter_eq_self.2 fun r _ => ?_
    simp [reportMatchesSearch, reportMatchesStatus, strIncludes_toLower_empty]

/-- Witness for C5 at a concrete template and category. -/
theorem category_restricts_and_all_identity_witness :
    tFixture.category = "Marketing" :=
  (category_restricts_and_all_identity [tFixture] "" "Marketing").1 tFixture
    (by decide)

/-- Claim C2: a click of the simulated generate or publish action taken
while the action is not pending drives the UI through pending and then
resolved exactly once (a further timer event changes nothing); while
pending the triggering control is disabled, so a click re-entering the
action is a no-op and at most one simulated operation is in flight per
user action. -/
theorem click_pending_resolved_once (s : GenState) (t : PubState) :
    (s.isGenerating = true → genStep s .clickGenerate = s) ∧
    (s.isGenerating = false → strTrim s.prompt ≠ "" →
      (genStep s .clickGenerate).isGenerating = true ∧
      (genStep s .clickGenerate).pendingPrompt = some s.prompt ∧
      (genStep (genStep s .clickGenerate) .generateTimer).isGenerating = false ∧
      (genStep (genStep s .clickGenerate) .generateTimer).navigatedTo =
        some (previewRoute, s.prompt) ∧
      genStep (genStep (genStep s .clickGenerate) .generateTimer)
          .generateTimer =
        genStep (genStep s .clickGenerate) .generateTimer) ∧
    (t.isPublishing = true → pubStep t .clickPublish = t) ∧
    (t.isPublishing = false → t.isPublished = false →
      (pubStep t .clickPublish).isPublishing = true ∧
      (pubStep (pubStep t .clickPublish) .publishTimer).isPublishing = false ∧
      (pubStep (pubStep t .clickPublish) .publishTimer).isPublished = true ∧
      pubStep (pubStep (pubStep t .clickPublish) .publishTimer)
          .publishTimer =
        pubStep (pubStep t .clickPublish) .publishTimer) := by
  refine ⟨?_, ?_, ?_, ?_⟩
  · intro h
    simp [genStep, generateDisabled, h]
  · intro h1 h2
    simp [genStep, generateDisabled, h1, h2, beq_iff_eq]
  · intro h
    simp [pubStep, publishDisabled, h]
  · intro h1 h2
    simp [pubStep, publishDisabled, h1, h2]

/-- Concrete CreateReport state with a non-blank prompt, not yet pending. -/
def genReadyFixture : GenState := { genInit with prompt := "q" }

/-- Concrete CreateReport state with a simulated generate call in flight. -/
def genPendingFixture : GenState :=
  { prompt := "q", isGenerating := true, pendingPrompt := some "q", navigatedTo := none }

/-- Concrete ReportPreview state with a simulated publish call in flight. -/
def pubPendingFixture : PubState :=
  { isPublishing := true, isPublished := false, pendingPublish := true }

/-- Concrete Settings state with a simulated save call in flight. -/
def savePendingFixture : SaveState :=
  { isSaving := true, saved := false, pendingSave := true, pendingReset := false }

/-- Witness for C2: starting from concrete idle and pending states, a click
enters the pending state, a click while pending is dropped, and the timer
resolves. -/
theorem click_pending_resolved_once_witness :
    (genStep genReadyFixture .clickGenerate).isGenerating = true ∧
    genStep genPendingFixture .clickGenerate = genPendingFixture ∧
    (pubStep (pubStep pubInit .clickPublish) .publishTimer).isPublished =
      true := by
  refine ⟨?_, ?_, ?_⟩
  · exact ((click_pending_resolved_once genReadyFixture pubInit).2.1 rfl
      (by decide)).1
  · exact (click_pending_resolved_once genPendingFixture pubInit).1 rfl
  · exact ((click_pending_resolved_once genInit pubInit).2.2.2 rfl rfl).2.2.1

/-- Claim C4: every simulated asynchronous operation (generate, publish,
save) always succeeds after its delay — whenever an operation is in
flight, the timer event unconditionally reaches the resolved state, with
no error branch or rejection. -/
theorem simulated_ops_always_resolve (s : GenState) (p : String)
    (t : PubState) (u : SaveState) :
    (s.pendingPrompt = some p →
      (genStep s .generateTimer).isGenerating = false ∧
      (genStep s .generateTimer).pendingPrompt = none ∧
      (genStep s .generateTimer).navigatedTo = some (previewRoute, p)) ∧
    (t.pendingPublish = true →
      (pubStep t .publishTimer).isPublishing = false ∧
      (pubStep t .publishTimer).isPublished = true ∧
      (pubStep t .publishTimer).pendingPublish = false) ∧
    (u.pendingSave = true →
      (saveStep u .saveTimer).isSaving = false ∧
      (saveStep u .saveTimer).saved = true ∧
      (saveStep u .saveTimer).pendingSave = false) := by
  refine ⟨?_, ?_, ?_⟩ <;> intro h <;> simp [genStep, pubStep, saveStep, h]

/-- Witness for C4 at concrete in-flight states of all three pages. -/
theorem simulated_ops_always_resolve_witness :
    (genStep genPendingFixture .generateTimer).navigatedTo =
      some (previewRoute, "q") ∧
    (pubStep pubPendingFixture .publishTimer).isPublished = true ∧
    (saveStep savePendingFixture .saveTimer).saved = true := by
  refine ⟨?_, ?_, ?_⟩
  · exact ((simulated_ops_always_resolve genPendingFixture "q" pubInit
      saveInit).1 rfl).2.2
  · exact ((simulated_ops_always_resolve genInit "" pubPendingFixture
      saveInit).2.1 rfl).2.1
  · exact ((simulated_ops_always_resolve genInit "" pubInit
      savePendingFixture).2.2 rfl).2.1

/-- Claim C6: the generate and publish actions are fixed-delay promises
that flip boolean flags and nothing else — generate (2000 ms) sets its
pending flag and on resolution clears it and navigates to the preview
carrying the prompt; publish (1500 ms) sets its pending flag and on
resolution clears it and sets the published flag; while an operation is in
flight no event cancels it: every event either leaves it in flight or
completes it with its effect. -/
theorem fixed_delay_flag_flips (s : GenState) (p : String) (t : PubState) :
    generateDelayMs = 2000 ∧ publishDelayMs = 1500 ∧
    (s.isGenerating = false → strTrim s.prompt ≠ "" →
      genStep s .clickGenerate =
        { s with isGenerating := true, pendingPrompt := some s.prompt }) ∧
    (s.isGenerating = true → s.pendingPrompt = some p → ∀ e : GenEvent,
      ((genStep s e).isGenerating = true ∧
        (genStep s e).pendingPrompt = some p) ∨
      ((genStep s e).isGenerating = false ∧
        (genStep s e).pendingPrompt = none ∧
        (genStep s e).navigatedTo = some (previewRoute, p))) ∧
    (t.isPublishing = false → t.isPublished = false →
      pubStep t .clickPublish =
        { t with isPublishing := true, pendingPublish := true }) ∧
    (t.isPublishing = true → t.pendingPublish = true → ∀ e : PubEvent,
      ((pubStep t e).isPublishing = true ∧
        (pubStep t e).pendingPublish = true ∧
        (pubStep t e).isPublished = t.isPublished) ∨
      ((pubStep t e).isPublishing = false ∧
        (pubStep t e).pendingPublish = false ∧
        (pubStep t e).isPublished = true)) := by
  refine ⟨rfl, rfl, ?_, ?_, ?_, ?_⟩
  · intro h1 h2
    simp [genStep, generateDisabled, h1, h2, beq_iff_eq]
  · intro h1 h2 e
    cases e <;> simp [genStep, generateDisabled, h1, h2]
  · intro h1 h2
    simp [pubStep, publishDisabled, h1, h2]
  · intro h1 h2 e
    cases e <;> simp [pubStep, publishDisabled, h1, h2]

/-- Witness for C6: delays and the concrete flag flips of one
click-then-resolve round of each action. -/
theorem fixed_delay_flag_flips_witness :
    generateDelayMs = 2000 ∧ publishDelayMs = 1500 ∧
    genStep genReadyFixture .clickGenerate = genPendingFixture ∧
    pubStep pubInit .clickPublish = pubPendingFixture := by
  obtain ⟨h1, h2, h3, -, h5, -⟩ :=
    fixed_delay_flag_flips genReadyFixture "q" pubInit
  exact ⟨h1, h2, h3 rfl (by decide), h5 rfl rfl⟩

/-- Claim C8: invoking the generate action with an empty or
whitespace-only prompt is a no-op — the click leaves the whole component
state unchanged — and the generate button is disabled for such prompts. -/
theorem empty_prompt_click_is_noop (s : GenState) :
    strTrim s.prompt = "" →
    genStep s .clickGenerate = s ∧ generateDisabled s = true := by
  intro h
  constructor
  · simp [genStep, generateDisabled, h]
  · simp [generateDisabled, h]

/-- Witness for C8 on a whitespace-only prompt. -/
theorem empty_prompt_click_is_noop_witness :
    genStep { genInit with prompt := "   " } .clickGenerate =
      { genInit with prompt := "   " } ∧
    generateDisabled { genInit with prompt := "   " } = true :=
  empty_prompt_click_is_noop { genInit with prompt := "   " } (by decide)

/-- Claim C9: publish succeeds at most once per preview session — once the
isPublished flag is true no event ever makes it false again, and the
publish control is disabled whenever isPublished is true, so a click can
never start a second publish operation. -/
theorem published_is_monotone (t : PubState) (e : PubEvent) :
    (t.isPublished = true → (pubStep t e).isPublished = true) ∧
    (t.isPublished = true → pubStep t .clickPublish = t) := by
  constructor
  · intro h
    cases e <;> cases hp : t.pendingPublish <;>
      simp [pubStep, publishDisabled, h, hp]
  · intro h
    simp [pubStep, publishDisabled, h]

/-- Witness for C9 at a concrete published state. -/
theorem published_is_monotone_witness :
    (pubStep { isPublishing := false, isPublished := true, pendingPublish := false } .publishTimer).isPublished = true :=
  (published_is_monotone { isPublishing := false, isPublished := true, pendingPublish := false } .publishTimer).1 rfl

/-- Claim C7: the preview renders the report sections in their given
order, a section becoming a table exactly when its type is 'table' and it
has data and a narrative paragraph otherwise, and renders the citations in
their given order numbered 1..n, emitting an external link exactly when
the citation has a URL. -/
theorem preview_renders_sections_citations (report : GeneratedReport) :
    (∀ i : Nat, (renderPreview report).1[i]? =
      (report.sections[i]?).map renderSection) ∧
    (∀ s : ReportSection, (renderSection s).isTable =
      (s.type == SectionType.table && s.data.isSome)) ∧
    (∀ s : ReportSection, (renderSection s).isTable = false →
      renderSection s = .narrativeCard s.title s.content) ∧
    (∀ i : Nat,
      ((renderPreview report).2[i]?).map
          (fun rc => (rc.number, rc.source, rc.excerpt, rc.link)) =
        (report.citations[i]?).map
          (fun c => (i + 1, c.source, c.excerpt, c.url))) := by
  refine ⟨?_, ?_, ?_, ?_⟩
  · intro i
    simp [renderPreview, List.getElem?_map]
  · intro s
    obtain ⟨id, title, ty, content, data⟩ := s
    cases ty <;> cases data <;> simp [renderSection, RenderedSection.isTable]
  · intro s h
    obtain ⟨id, title, ty, content, data⟩ := s
    cases ty <;> cases data <;>
      simp_all [renderSection, RenderedSection.isTable]
  · intro i
    rcases hc : report.citations[i]? with _ | c <;>
      simp [renderPreview, renderCitations, List.getElem?_map,
        List.getElem?_enum, hc]

/-- Witness for C7: a concrete narrative section renders as a narrative
card, and the first citation of a concrete report renders numbered 1 with
its external link. -/
theorem preview_renders_sections_citations_witness :
    renderSection sectionFixture =
      RenderedSection.narrativeCard "Overview" "Narrative body" ∧
    ((renderPreview previewFixture).2[0]?).map
        (fun rc => (rc.number, rc.source, rc.excerpt, rc.link)) =
      some (1, "Internal KPI Database", "Revenue grew",
        some "https://example.com") := by
  have h := preview_renders_sections_citations previewFixture
  exact ⟨h.2.2.1 sectionFixture rfl, h.2.2.2 0⟩
